import Mathlib

/-!
Verification development for `profile_firebase.py`, a control loop that
repeatedly drives a subordinate `firebase database:profile` process through
wall-clock-aligned capture windows and persists its output.

The Python source is shallowly embedded below:

* durations (`datetime.timedelta`) are integers counting microseconds, the
  exact internal resolution of `timedelta`;
* `datetime.datetime` values are records of their calendar fields;
* Python's dynamically-typed arithmetic on mixed `float`/`timedelta` operands
  is embedded as a sum type `PyVal` with failure-aware operations returning
  `Except PyError _` (Python raises `TypeError` on `float + timedelta`);
* the subordinate OS process is an oracle: a record of the observable
  behaviour the controller can see (whether it exits during the bounded wait,
  whether it exits after the stop token, its buffered stdout/stderr), plus a
  poll oracle `ℕ → Option Int` giving the result of the k-th `poll()` call
  and a clock oracle `ℕ → ℚ` giving the k-th `time.time()` reading;
* loops that Python would run unboundedly are given explicit fuel; running
  out of fuel is reported as a distinguished outcome, never as a result.
-/

/-! ## Python dynamic-typing model -/

/-- Python runtime errors relevant to this program. -/
inductive PyError where
  | typeError
  | assertionError
  | zeroDivisionError
deriving DecidableEq, Repr

/-- A Python value flowing through `end_process`'s deadline arithmetic:
either a `float` (as returned by `time.time()`) or a `datetime.timedelta`
(measured in seconds, held as a rational to model Python's exact
`timedelta(seconds=0.1)`). -/
inductive PyVal where
  | float (x : ℚ)
  | timedelta (seconds : ℚ)
deriving DecidableEq, Repr

/-- Python `+` on these operand types: `float + float` and
`timedelta + timedelta` succeed; the mixed cases raise `TypeError`
(neither `float.__add__` nor `timedelta.__radd__` accepts the other). -/
def pyAdd : PyVal → PyVal → Except PyError PyVal
  | .float a, .float b => .ok (.float (a + b))
  | .timedelta a, .timedelta b => .ok (.timedelta (a + b))
  | _, _ => .error .typeError

/-- Python `-` on these operand types, same typing discipline as `pyAdd`. -/
def pySub : PyVal → PyVal → Except PyError PyVal
  | .float a, .float b => .ok (.float (a - b))
  | .timedelta a, .timedelta b => .ok (.timedelta (a - b))
  | _, _ => .error .typeError

/-- Python `<` on these operand types: comparable only within a type. -/
def pyLt : PyVal → PyVal → Except PyError Bool
  | .float a, .float b => .ok (decide (a < b))
  | .timedelta a, .timedelta b => .ok (decide (a < b))
  | _, _ => .error .typeError

/-! ## Durations and datetimes -/

/-- Constant `datetime.timedelta(hours=24)` in microseconds. -/
def microsPerDay : Int := 24 * 60 * 60 * 1000000

/-- Constant `LOGFILE_PERIOD = datetime.timedelta(minutes=30)`, in microseconds. -/
def LOGFILE_PERIOD : Int := 30 * 60 * 1000000

/-- Constant `PROFILER_OUTPUT_WAIT_TIMEOUT = datetime.timedelta(seconds=30)`, in
microseconds. -/
def PROFILER_OUTPUT_WAIT_TIMEOUT : Int := 30 * 1000000

/-- Constant `SIGTERM_GRACE_PERIOD = datetime.timedelta(seconds=5)`. Kept as a
`PyVal` because `end_process` feeds it to dynamically-typed arithmetic. -/
def SIGTERM_GRACE_PERIOD : PyVal := .timedelta 5

/-- Constant `SIGNAL_SUCCESS_CHECK_POLL_FREQUENCY = datetime.timedelta(seconds=0.1)`. -/
def SIGNAL_SUCCESS_CHECK_POLL_FREQUENCY : PyVal := .timedelta (1 / 10)

/-- A `datetime.datetime` value: its calendar fields plus whether it carries
the UTC timezone (`tzinfo=datetime.timezone.utc`; the program only ever
builds aware UTC datetimes via `utcnow().replace(tzinfo=utc)`). Field
ranges (`1 ≤ month ≤ 12`, `hour < 24`, ... ) are datetime's documented
invariants and appear as hypotheses where needed. -/
structure DateTime where
  year : ℕ
  month : ℕ
  day : ℕ
  hour : ℕ
  minute : ℕ
  second : ℕ
  microsecond : ℕ
  utc : Bool
deriving DecidableEq, Repr

/-- The `timedelta` built by `get_time_until_next_interval_start` from
`current_datetime.time()`:
`timedelta(seconds=hour*60*60 + minute*60 + second, microseconds=microsecond)`,
expressed in microseconds. -/
def timeOfDayMicros (dt : DateTime) : Int :=
  ((dt.hour * 60 * 60 + dt.minute * 60 + dt.second) * 1000000 + dt.microsecond : ℕ)

/-- Python `%` on two timedeltas: raises `ZeroDivisionError` on a zero
divisor, otherwise floor-style modulo (the sign follows the divisor), which
on integers is `Int.fmod`. -/
def pyTimedeltaMod (a b : Int) : Except PyError Int :=
  if b = 0 then .error .zeroDivisionError else .ok (Int.fmod a b)

/-- Source function `get_time_until_next_interval_start(current_datetime, interval_period)`.
The two `assert` statements run in source order: first
`interval_period <= timedelta(hours=24)`, then
`(timedelta(hours=24) % interval_period).total_seconds() == 0` (the
remainder is a whole number of microseconds, so its `total_seconds()` is
`0.0` exactly when the remainder is zero). On success the function returns
`interval_period - (current_time_as_dt % interval_period)`. -/
def get_time_until_next_interval_start (current_datetime : DateTime)
    (interval_period : Int) : Except PyError Int :=
  if microsPerDay < interval_period then .error .assertionError
  else
    match pyTimedeltaMod microsPerDay interval_period with
    | .error e => .error e
    | .ok r =>
      if r ≠ 0 then .error .assertionError
      else
        match pyTimedeltaMod (timeOfDayMicros current_datetime) interval_period with
        | .error e => .error e
        | .ok m => .ok (interval_period - m)

/-! ### Scheduler lemmas -/

/-- Lemma: `Int.fmod` vanishes exactly on multiples (for a nonzero divisor). -/
theorem fmod_eq_zero_iff_dvd (a b : Int) (hb : b ≠ 0) :
    Int.fmod a b = 0 ↔ b ∣ a := by
  constructor
  · intro h
    refine ⟨a.fdiv b, ?_⟩
    have := Int.fmod_add_fdiv a b
    rw [h, zero_add] at this
    omega
  · rintro ⟨c, rfl⟩
    have h1 := Int.fmod_add_fdiv (b * c) b
    rw [Int.mul_fdiv_cancel_left c hb] at h1
    omega

/-- On a valid grid period the function reduces to
`p - (time-of-day offset mod p)`. -/
theorem get_time_until_eq (dt : DateTime) (p : Int) (hpos : 0 < p)
    (hle : p ≤ microsPerDay) (hdvd : p ∣ microsPerDay) :
    get_time_until_next_interval_start dt p = .ok (p - timeOfDayMicros dt % p) := by
  have hne : p ≠ 0 := by omega
  have hfm : Int.fmod microsPerDay p = 0 := (fmod_eq_zero_iff_dvd _ _ hne).mpr hdvd
  have hoff : Int.fmod (timeOfDayMicros dt) p = timeOfDayMicros dt % p :=
    Int.fmod_eq_emod _ (by omega)
  simp only [get_time_until_next_interval_start, pyTimedeltaMod, if_neg hne,
    if_neg (not_lt.mpr hle), hfm, hoff]
  simp

/-- C4: for every grid period `p` with `0 < p ≤ 24h` evenly dividing 24h and
every datetime `t`, `get_time_until_next_interval_start t p` returns
`p - (offset mod p)` where `offset` is `t`'s time-of-day offset from
midnight; the result plus `offset mod p` is exactly `p`, the result lies in
`(0, p]`, and on an exact boundary (`offset mod p = 0`) the full period is
returned. -/
theorem C4_next_interval_start (dt : DateTime) (p : Int) (hpos : 0 < p)
    (hle : p ≤ microsPerDay) (hdvd : p ∣ microsPerDay) :
    get_time_until_next_interval_start dt p
        = .ok (p - timeOfDayMicros dt % p) ∧
      (p - timeOfDayMicros dt % p) + timeOfDayMicros dt % p = p ∧
      0 < p - timeOfDayMicros dt % p ∧
      p - timeOfDayMicros dt % p ≤ p ∧
      (timeOfDayMicros dt % p = 0 →
        get_time_until_next_interval_start dt p = .ok p) := by
  have heq := get_time_until_eq dt p hpos hle hdvd
  have hlt : timeOfDayMicros dt % p < p := Int.emod_lt_of_pos _ hpos
  have hge : 0 ≤ timeOfDayMicros dt % p := Int.emod_nonneg _ (by omega)
  refine ⟨heq, by omega, by omega, by omega, fun h0 => ?_⟩
  rw [heq, h0, sub_zero]

/-- Witness for C4 at `p` = 30 minutes and `t` = 2023-05-01T00:15:30.123456Z:
the scheduler returns the 14 min 29.876544 s remaining to 00:30:00. -/
theorem C4_next_interval_start_witness :
    get_time_until_next_interval_start
        ⟨2023, 5, 1, 0, 15, 30, 123456, true⟩ LOGFILE_PERIOD
      = .ok (LOGFILE_PERIOD
          - timeOfDayMicros ⟨2023, 5, 1, 0, 15, 30, 123456, true⟩ % LOGFILE_PERIOD) :=
  (C4_next_interval_start ⟨2023, 5, 1, 0, 15, 30, 123456, true⟩ LOGFILE_PERIOD
    (by decide) (by decide) (by decide)).1

/-- C10: the scheduler depends only on the time-of-day of its datetime
argument: two datetimes agreeing on hour, minute, second and microsecond
give the same result for every valid grid period, regardless of their
dates. -/
theorem C10_date_irrelevant (p : Int) (dt1 dt2 : DateTime)
    (_hle : p ≤ microsPerDay) (_hdvd : p ∣ microsPerDay)
    (hh : dt1.hour = dt2.hour) (hm : dt1.minute = dt2.minute)
    (hs : dt1.second = dt2.second) (hus : dt1.microsecond = dt2.microsecond) :
    get_time_until_next_interval_start dt1 p
      = get_time_until_next_interval_start dt2 p := by
  have hoff : timeOfDayMicros dt1 = timeOfDayMicros dt2 := by
    simp [timeOfDayMicros, hh, hm, hs, hus]
  simp [get_time_until_next_interval_start, hoff]

/-- Witness for C10: 2023-05-01 and 1999-12-31, both at 06:00:00.000000,
give the same time-to-next-boundary for the 30-minute grid. -/
theorem C10_date_irrelevant_witness :
    get_time_until_next_interval_start ⟨2023, 5, 1, 6, 0, 0, 0, true⟩ LOGFILE_PERIOD
      = get_time_until_next_interval_start ⟨1999, 12, 31, 6, 0, 0, 0, true⟩ LOGFILE_PERIOD :=
  C10_date_irrelevant LOGFILE_PERIOD _ _ (by decide) (by decide) rfl rfl rfl rfl

/-- C8: the scheduler fails fast exactly on bad grid periods: it raises
(`AssertionError`, or `ZeroDivisionError` for a zero period) whenever the
period exceeds 24 hours or does not evenly divide 24 hours, and it returns
normally (no assertion fires) for every period satisfying the
precondition. -/
theorem C8_asserts_guard_precondition (dt : DateTime) (p : Int) :
    ((microsPerDay < p ∨ ¬ p ∣ microsPerDay) →
      ∃ e, get_time_until_next_interval_start dt p = .error e) ∧
    ((p ≤ microsPerDay ∧ p ∣ microsPerDay) →
      ∃ v, get_time_until_next_interval_start dt p = .ok v) := by
  constructor
  · intro hbad
    by_cases hgt : microsPerDay < p
    · exact ⟨.assertionError, by simp [get_time_until_next_interval_start, hgt]⟩
    · have hndvd : ¬ p ∣ microsPerDay := by
        rcases hbad with h | h
        · exact absurd h hgt
        · exact h
      by_cases hz : p = 0
      · exact ⟨.zeroDivisionError,
          by simp [get_time_until_next_interval_start, pyTimedeltaMod, hgt, hz,
            microsPerDay]⟩
      · have hfm : Int.fmod microsPerDay p ≠ 0 := by
          intro h
          exact hndvd ((fmod_eq_zero_iff_dvd _ _ hz).mp h)
        exact ⟨.assertionError,
          by simp [get_time_until_next_interval_start, pyTimedeltaMod, hgt, hz, hfm]⟩
  · rintro ⟨hle, hdvd⟩
    have hz : p ≠ 0 := by
      rintro rfl
      rw [Int.zero_dvd] at hdvd
      exact absurd hdvd (by decide)
    have hfm : Int.fmod microsPerDay p = 0 := (fmod_eq_zero_iff_dvd _ _ hz).mpr hdvd
    exact ⟨p - Int.fmod (timeOfDayMicros dt) p,
      by simp [get_time_until_next_interval_start, pyTimedeltaMod,
        not_lt.mpr hle, hz, hfm]⟩

/-- Witness for C8: a 7-hour period (≤ 24h but not dividing 24h) raises, and
the 30-minute production period returns normally. -/
theorem C8_asserts_guard_precondition_witness :
    (∃ e, get_time_until_next_interval_start ⟨2023, 5, 1, 6, 0, 0, 0, true⟩
        (7 * 60 * 60 * 1000000) = .error e) ∧
    (∃ v, get_time_until_next_interval_start ⟨2023, 5, 1, 6, 0, 0, 0, true⟩
        LOGFILE_PERIOD = .ok v) :=
  ⟨(C8_asserts_guard_precondition ⟨2023, 5, 1, 6, 0, 0, 0, true⟩
      (7 * 60 * 60 * 1000000)).1 (Or.inr (by decide)),
   (C8_asserts_guard_precondition ⟨2023, 5, 1, 6, 0, 0, 0, true⟩
      LOGFILE_PERIOD).2 ⟨by decide, by decide⟩⟩

/-! ## Filename formatting -/

/-- Two zero-padded decimal digits, as printed by `datetime.isoformat` for
month, day, hour, minute and second (all of which are below 100). -/
def pad2 (n : ℕ) : List Char := [Nat.digitChar (n / 10), Nat.digitChar (n % 10)]

/-- Four zero-padded decimal digits, as printed for the year (1..9999). -/
def pad4 (n : ℕ) : List Char :=
  [Nat.digitChar (n / 1000), Nat.digitChar (n / 100 % 10),
   Nat.digitChar (n / 10 % 10), Nat.digitChar (n % 10)]

/-- Six zero-padded decimal digits, printed for a nonzero microsecond
field. -/
def pad6 (n : ℕ) : List Char :=
  [Nat.digitChar (n / 100000), Nat.digitChar (n / 10000 % 10),
   Nat.digitChar (n / 1000 % 10), Nat.digitChar (n / 100 % 10),
   Nat.digitChar (n / 10 % 10), Nat.digitChar (n % 10)]

/-- Whether the first list is an initial segment of the second. -/
def listStartsWith : List Char → List Char → Bool
  | [], _ => true
  | _ :: _, [] => false
  | p :: ps, c :: cs => p == c && listStartsWith ps cs

/-- Replace every non-overlapping occurrence of the nonempty pattern
`p :: ps` by `rep`, scanning left to right — the semantics of Python's
`str.replace` for a nonempty pattern. The fuel argument makes the recursion
structural; each step consumes at least one haystack character, so fuel
equal to the haystack length (as supplied by `strReplace`) never runs
out. -/
def replaceGo (p : Char) (ps rep : List Char) : ℕ → List Char → List Char
  | _, [] => []
  | 0, c :: rest => c :: rest
  | f + 1, c :: rest =>
    if listStartsWith (p :: ps) (c :: rest) then
      rep ++ replaceGo p ps rep f (rest.drop ps.length)
    else
      c :: replaceGo p ps rep f rest

/-- Python `s.replace(pat, rep)`. The program only calls it with the
nonempty patterns `'+00:00'` and `':'`; the empty-pattern case (on which
Python would interleave `rep` everywhere) is left as the identity and never
exercised. -/
def strReplace (s pat rep : String) : String :=
  match pat.data with
  | [] => s
  | p :: ps => ⟨replaceGo p ps rep.data s.data.length s.data⟩

/-- Python `datetime.isoformat()` for the datetimes this program builds:
`YYYY-MM-DDTHH:MM:SS`, then `.ffffff` only when the microsecond field is
nonzero, then `+00:00` only when the value is UTC-aware. -/
def isoformat (dt : DateTime) : String :=
  ⟨(pad4 dt.year ++ ['-'] ++ pad2 dt.month ++ ['-'] ++ pad2 dt.day ++ ['T']
      ++ pad2 dt.hour ++ [':'] ++ pad2 dt.minute ++ [':'] ++ pad2 dt.second
      ++ (if dt.microsecond = 0 then [] else ['.'] ++ pad6 dt.microsecond))
    ++ (if dt.utc then ['+', '0', '0', ':', '0', '0'] else [])⟩

/-- Source function `format_datetime_for_filename(value)`: zero the microsecond field,
render as ISO-8601, rewrite the `+00:00` suffix to `Z`, then rewrite every
`:` to `-`. -/
def format_datetime_for_filename (value : DateTime) : String :=
  let formatted_value := { value with microsecond := 0 }
  let s1 := isoformat formatted_value
  let s2 := strReplace s1 "+00:00" "Z"
  strReplace s2 ":" "-"

/-- The rendering described by the spec's words: the ISO-8601 form truncated
to second precision, with colons replaced by dashes and the UTC offset
written as a `Z` suffix. -/
def specFilenameRendering (dt : DateTime) : String :=
  ⟨pad4 dt.year ++ ['-'] ++ pad2 dt.month ++ ['-'] ++ pad2 dt.day ++ ['T']
    ++ pad2 dt.hour ++ ['-'] ++ pad2 dt.minute ++ ['-'] ++ pad2 dt.second
    ++ ['Z']⟩

/-! ### Formatting lemmas -/

/-- Decimal digit characters are neither `'+'` nor `':'`. -/
theorem digitChar_safe : ∀ m, m < 10 →
    ¬ '+' = Nat.digitChar m ∧ ¬ ':' = Nat.digitChar m := by decide

/-- Characters of `pad2` are digits, hence neither `'+'` nor `':'`. -/
theorem pad2_safe (n : ℕ) (hn : n < 100) :
    ∀ c ∈ pad2 n, ¬ '+' = c ∧ ¬ ':' = c := by
  intro c hc
  simp only [pad2, List.mem_cons, List.not_mem_nil, or_false] at hc
  rcases hc with rfl | rfl
  · exact digitChar_safe _ (Nat.div_lt_of_lt_mul (by omega))
  · exact digitChar_safe _ (Nat.mod_lt _ (by omega))

/-- Characters of `pad4` are digits, hence neither `'+'` nor `':'`. -/
theorem pad4_safe (n : ℕ) (hn : n < 10000) :
    ∀ c ∈ pad4 n, ¬ '+' = c ∧ ¬ ':' = c := by
  intro c hc
  simp only [pad4, List.mem_cons, List.not_mem_nil, or_false] at hc
  rcases hc with rfl | rfl | rfl | rfl
  · exact digitChar_safe _ (Nat.div_lt_of_lt_mul (by omega))
  · exact digitChar_safe _ (Nat.mod_lt _ (by omega))
  · exact digitChar_safe _ (Nat.mod_lt _ (by omega))
  · exact digitChar_safe _ (Nat.mod_lt _ (by omega))

/-- Scanning a chunk that never starts an occurrence of the pattern copies
it unchanged and continues on the remainder with the corresponding fuel. -/
theorem replaceGo_append (p : Char) (ps rep ys : List Char) :
    ∀ xs : List Char, ∀ f : ℕ, xs.length ≤ f → (∀ c ∈ xs, ¬ p = c) →
      replaceGo p ps rep f (xs ++ ys) = xs ++ replaceGo p ps rep (f - xs.length) ys := by
  intro xs
  induction xs with
  | nil => intro f _ _; simp
  | cons c xs ih =>
    intro f hf hsafe
    match f with
    | 0 => exact absurd hf (by simp)
    | f + 1 =>
      have hc : ¬ p = c := hsafe c (by simp)
      have hcond : listStartsWith (p :: ps) (c :: (xs ++ ys)) = false := by
        simp [listStartsWith]
        intro h
        exact absurd h hc
      show (if listStartsWith (p :: ps) (c :: (xs ++ ys)) then _ else _) = _
      rw [hcond]
      simp only [Bool.false_eq_true, if_false, List.cons_append, List.length_cons,
        List.append_eq, Nat.add_sub_add_right]
      rw [ih f (by simpa using hf) (fun d hd => hsafe d (by simp [hd]))]

/-- With a single-character pattern and single-character replacement,
`replaceGo` is a character map (given enough fuel). -/
theorem replaceGo_single (q r : Char) :
    ∀ xs : List Char, ∀ f : ℕ, xs.length ≤ f →
      replaceGo q [] [r] f xs = xs.map (fun c => if q = c then r else c) := by
  intro xs
  induction xs with
  | nil => intro f _; cases f <;> rfl
  | cons c xs ih =>
    intro f hf
    match f with
    | 0 => exact absurd hf (by simp)
    | f + 1 =>
      show (if listStartsWith [q] (c :: xs) then _ else _) = _
      by_cases hqc : q = c
      · rw [if_pos (by simp [listStartsWith, hqc])]
        simp only [List.length_nil, List.drop_zero, List.map_cons, if_pos hqc,
          List.singleton_append]
        rw [ih f (by simpa using hf)]
      · rw [if_neg (by simp [listStartsWith, hqc])]
        simp only [List.map_cons, if_neg hqc]
        rw [ih f (by simpa using hf)]

/-- Character-level content of the ISO rendering of a microsecond-zeroed,
UTC-aware datetime. -/
theorem iso_data (dt : DateTime) (hutc : dt.utc = true) (h0 : dt.microsecond = 0) :
    (isoformat dt).data
      = (pad4 dt.year ++ ['-'] ++ pad2 dt.month ++ ['-'] ++ pad2 dt.day ++ ['T']
          ++ pad2 dt.hour ++ [':'] ++ pad2 dt.minute ++ [':'] ++ pad2 dt.second)
        ++ ['+', '0', '0', ':', '0', '0'] := by
  simp [isoformat, hutc, h0]

/-- No character of the date-and-time part of the ISO rendering is `'+'`,
so the `'+00:00' → 'Z'` replacement only fires on the timezone suffix. -/
theorem iso_head_plus_free (dt : DateTime)
    (hy : dt.year < 10000) (hmo : dt.month < 100) (hd : dt.day < 100)
    (hh : dt.hour < 100) (hmi : dt.minute < 100) (hs : dt.second < 100) :
    ∀ c ∈ (pad4 dt.year ++ ['-'] ++ pad2 dt.month ++ ['-'] ++ pad2 dt.day ++ ['T']
        ++ pad2 dt.hour ++ [':'] ++ pad2 dt.minute ++ [':'] ++ pad2 dt.second),
      ¬ '+' = c := by
  intro c hc
  simp only [List.mem_append, List.mem_cons, List.not_mem_nil, or_false,
    or_assoc] at hc
  rcases hc with hc | rfl | hc | rfl | hc | rfl | hc | rfl | hc | rfl | hc
  · exact (pad4_safe _ hy c hc).1
  · decide
  · exact (pad2_safe _ hmo c hc).1
  · decide
  · exact (pad2_safe _ hd c hc).1
  · decide
  · exact (pad2_safe _ hh c hc).1
  · decide
  · exact (pad2_safe _ hmi c hc).1
  · decide
  · exact (pad2_safe _ hs c hc).1

/-- Unfolding `strReplace` with the `'+00:00'` pattern to its scanner. -/
theorem strReplace_plus (s : String) :
    strReplace s "+00:00" "Z"
      = ⟨replaceGo '+' ['0', '0', ':', '0', '0'] ['Z'] s.data.length s.data⟩ := rfl

/-- Unfolding `strReplace` with the `':'` pattern to its scanner. -/
theorem strReplace_colon (s : String) :
    strReplace s ":" "-" = ⟨replaceGo ':' [] ['-'] s.data.length s.data⟩ := rfl

/-- If no character of `xs` is `'+'`, replacing `'+00:00'` in
`xs ++ '+00:00'` yields `xs ++ 'Z'`. -/
theorem replace_plus_of_plus_free (xs : List Char) (h : ∀ c ∈ xs, ¬ '+' = c) :
    strReplace ⟨xs ++ ['+', '0', '0', ':', '0', '0']⟩ "+00:00" "Z"
      = ⟨xs ++ ['Z']⟩ := by
  rw [strReplace_plus]
  refine congrArg String.mk ?_
  show replaceGo '+' ['0', '0', ':', '0', '0'] ['Z']
      (xs ++ ['+', '0', '0', ':', '0', '0']).length
      (xs ++ ['+', '0', '0', ':', '0', '0']) = xs ++ ['Z']
  rw [replaceGo_append '+' ['0', '0', ':', '0', '0'] ['Z'] _ xs _ (by simp) h]
  have h6 : (xs ++ ['+', '0', '0', ':', '0', '0']).length - xs.length = 6 := by simp
  rw [h6]
  have h7 : replaceGo '+' ['0', '0', ':', '0', '0'] ['Z'] 6
      ['+', '0', '0', ':', '0', '0'] = ['Z'] := rfl
  rw [h7]

/-- Replacing the single character `':'` by `'-'` is a character map. -/
theorem replace_colon_map (xs : List Char) :
    strReplace ⟨xs⟩ ":" "-"
      = ⟨xs.map (fun c => if ':' = c then '-' else c)⟩ := by
  rw [strReplace_colon]
  exact congrArg String.mk (replaceGo_single ':' '-' xs xs.length (le_refl _))

/-- The colon map leaves a two-digit field unchanged. -/
theorem map_colon_pad2 (n : ℕ) (hn : n < 100) :
    (pad2 n).map (fun c => if ':' = c then '-' else c) = pad2 n := by
  have h1 := (digitChar_safe (n / 10) (Nat.div_lt_of_lt_mul (by omega))).2
  have h2 := (digitChar_safe (n % 10) (Nat.mod_lt _ (by omega))).2
  simp [pad2, if_neg h1, if_neg h2]

/-- The colon map leaves the four-digit year field unchanged. -/
theorem map_colon_pad4 (n : ℕ) (hn : n < 10000) :
    (pad4 n).map (fun c => if ':' = c then '-' else c) = pad4 n := by
  have h1 := (digitChar_safe (n / 1000) (Nat.div_lt_of_lt_mul (by omega))).2
  have h2 := (digitChar_safe (n / 100 % 10) (Nat.mod_lt _ (by omega))).2
  have h3 := (digitChar_safe (n / 10 % 10) (Nat.mod_lt _ (by omega))).2
  have h4 := (digitChar_safe (n % 10) (Nat.mod_lt _ (by omega))).2
  simp [pad4, if_neg h1, if_neg h2, if_neg h3, if_neg h4]

/-- String-level form of the ISO rendering of a microsecond-zeroed,
UTC-aware datetime. -/
theorem iso_string (dt : DateTime) (hutc : dt.utc = true) (h0 : dt.microsecond = 0) :
    isoformat dt
      = ⟨(pad4 dt.year ++ ['-'] ++ pad2 dt.month ++ ['-'] ++ pad2 dt.day ++ ['T']
            ++ pad2 dt.hour ++ [':'] ++ pad2 dt.minute ++ [':'] ++ pad2 dt.second)
          ++ ['+', '0', '0', ':', '0', '0']⟩ := by
  simp [isoformat, hutc, h0]

/-- C5: for every UTC datetime (fields within datetime's documented
ranges), `format_datetime_for_filename` produces the ISO-8601 rendering
truncated to second precision with colons replaced by dashes and the
`+00:00` offset replaced by a `Z` suffix. -/
theorem C5_format_filename (dt : DateTime) (hutc : dt.utc = true)
    (hy : dt.year ≤ 9999) (hmo : dt.month ≤ 12) (hd : dt.day ≤ 31)
    (hh : dt.hour ≤ 23) (hmi : dt.minute ≤ 59) (hs : dt.second ≤ 59) :
    format_datetime_for_filename dt = specFilenameRendering dt := by
  have hy' : dt.year < 10000 := by omega
  have hmo' : dt.month < 100 := by omega
  have hd' : dt.day < 100 := by omega
  have hh' : dt.hour < 100 := by omega
  have hmi' : dt.minute < 100 := by omega
  have hs' : dt.second < 100 := by omega
  show strReplace (strReplace (isoformat { dt with microsecond := 0 }) "+00:00" "Z") ":" "-"
      = specFilenameRendering dt
  rw [iso_string { dt with microsecond := 0 } hutc rfl]
  dsimp only
  rw [replace_plus_of_plus_free _ (iso_head_plus_free dt hy' hmo' hd' hh' hmi' hs')]
  rw [replace_colon_map]
  simp only [specFilenameRendering]
  refine congrArg String.mk ?_
  simp [map_colon_pad4 dt.year hy', map_colon_pad2 dt.month hmo',
    map_colon_pad2 dt.day hd', map_colon_pad2 dt.hour hh',
    map_colon_pad2 dt.minute hmi', map_colon_pad2 dt.second hs']

/-- Witness for C5 at the spec's example input
`2023-05-01T00:15:30.123456+00:00`: the output is `2023-05-01T00-15-30Z`. -/
theorem C5_format_filename_witness :
    format_datetime_for_filename ⟨2023, 5, 1, 0, 15, 30, 123456, true⟩
      = "2023-05-01T00-15-30Z" := by
  rw [C5_format_filename ⟨2023, 5, 1, 0, 15, 30, 123456, true⟩ rfl (by decide)
    (by decide) (by decide) (by decide) (by decide) (by decide)]
  decide

/-! ## Subordinate process model -/

/-- Observable actions `end_process` takes on the OS process. -/
inductive PEvent where
  | terminate
  | pollCall
  | sleepCall
  | kill
deriving DecidableEq, Repr

/-- How a call to `end_process` ends: a normal return, a propagating Python
exception, or fuel exhaustion (the model's stand-in for an unbounded
loop). -/
inductive EndResult where
  | returned
  | raised (e : PyError)
  | fuelOut
deriving DecidableEq, Repr

/-- Events performed and final disposition of one `end_process` call. -/
structure EndOutcome where
  events : List PEvent
  result : EndResult
deriving DecidableEq, Repr

/-- One evaluation of the grace-loop condition
`time.time() < sigterm_time + SIGTERM_GRACE_PERIOD - SIGNAL_SUCCESS_CHECK_POLL_FREQUENCY`,
reading the `ck`-th clock sample. Python evaluates the left operand, then
the right-hand arithmetic left to right, so `sigterm_time + SIGTERM_GRACE_PERIOD`
runs first — and raises `TypeError` because `sigterm_time` is a float while
the grace period is a timedelta. -/
def graceCond (sigterm_time : PyVal) (clock : ℕ → ℚ) (ck : ℕ) :
    Except PyError Bool := do
  let t := PyVal.float (clock ck)
  let d1 ← pyAdd sigterm_time SIGTERM_GRACE_PERIOD
  let d2 ← pySub d1 SIGNAL_SUCCESS_CHECK_POLL_FREQUENCY
  pyLt t d2

/-- The closing `while process.poll() != None: sleep(...)` loop of
`end_process`, exactly as written: it loops while `poll()` reports an exit
status and returns as soon as `poll()` reports the process still running. -/
def end_killWait (poll : ℕ → Option Int) (pk : ℕ) (acc : List PEvent) :
    ℕ → EndOutcome
  | 0 => ⟨acc, .fuelOut⟩
  | f + 1 =>
    match poll pk with
    | some _ => end_killWait poll (pk + 1) (acc ++ [.pollCall, .sleepCall]) f
    | none => ⟨acc ++ [.pollCall], .returned⟩

/-- The grace-period loop of `end_process`, exactly as written, including
the `if process.poll() == None: return` check (source comment: the process
exited gracefully). `ck`/`pk` index the next clock and poll samples. -/
def end_graceLoop (sigterm_time : PyVal) (clock : ℕ → ℚ) (poll : ℕ → Option Int)
    (ck pk : ℕ) (acc : List PEvent) : ℕ → EndOutcome
  | 0 => ⟨acc, .fuelOut⟩
  | f + 1 =>
    match graceCond sigterm_time clock ck with
    | .error e => ⟨acc, .raised e⟩
    | .ok true =>
      match poll pk with
      | none => ⟨acc ++ [.pollCall], .returned⟩
      | some _ =>
        end_graceLoop sigterm_time clock poll (ck + 1) (pk + 1)
          (acc ++ [.pollCall, .sleepCall]) f
    | .ok false => end_killWait poll pk (acc ++ [.kill]) f

/-- Source function `end_process(process)`: record `sigterm_time = time.time()`, send
SIGTERM (`process.terminate()`), then run the grace loop and, on its
falling through, SIGKILL plus the confirmation loop. The process's visible
behaviour is the poll oracle; wall-clock readings come from the clock
oracle. -/
def end_process (clock : ℕ → ℚ) (poll : ℕ → Option Int) (fuel : ℕ) : EndOutcome :=
  let sigterm_time := PyVal.float (clock 0)
  end_graceLoop sigterm_time clock poll 1 0 [.terminate] fuel

/-- With any fuel left, `end_process` sends the termination request and then
raises `TypeError` evaluating the loop deadline: `float + timedelta`. -/
theorem end_process_eq (clock : ℕ → ℚ) (poll : ℕ → Option Int) (f : ℕ) :
    end_process clock poll (f + 1) = ⟨[.terminate], .raised .typeError⟩ := by
  show end_graceLoop (PyVal.float (clock 0)) clock poll 1 0 [.terminate] (f + 1) = _
  simp [end_graceLoop, graceCond, pyAdd, SIGTERM_GRACE_PERIOD, Bind.bind,
    Except.bind]

/-- C9: for every process and clock behaviour, `end_process` sends the
initial termination request and then raises `TypeError` on the first
evaluation of the grace-period loop condition (the deadline adds the float
`sigterm_time` to a timedelta); it never polls, never kills, and never
reaches its normal return. -/
theorem C9_end_process_type_error (clock : ℕ → ℚ) (poll : ℕ → Option Int)
    (fuel : ℕ) (hf : 0 < fuel) :
    end_process clock poll fuel = ⟨[.terminate], .raised .typeError⟩ := by
  match fuel, hf with
  | f + 1, _ => exact end_process_eq clock poll f

/-- Witness for C9 on a concrete clock, poll oracle and fuel. -/
theorem C9_end_process_type_error_witness :
    0 < 5 ∧ end_process (fun _ => 0) (fun _ => none) 5
      = ⟨[.terminate], .raised .typeError⟩ :=
  ⟨by decide, C9_end_process_type_error (fun _ => 0) (fun _ => none) 5 (by decide)⟩

/-- C1 fails on the code: for a process that would exit promptly after the
termination request (`poll` reports an exit status immediately),
`end_process` still raises `TypeError` right after `terminate()`: it never
polls the process, so it neither observes the exit nor returns normally,
contradicting the claimed graceful-termination contract. -/
theorem C1_end_process_violation :
    end_process (fun k => (k : ℚ)) (fun _ => some 0) 100
      = ⟨[.terminate], .raised .typeError⟩ := rfl

/-- Observable behaviour of one subordinate profiler process, as the
controller can see it through `wait`, `poll` and `communicate`:
whether `process.poll()` reports an exit status once the bounded wait
(`run_length + PROFILER_OUTPUT_WAIT_TIMEOUT`) is over, whether the process
exits within the output-wait timeout after the stop token is written, and
the stdout/stderr text buffered on its pipes (already decoded). -/
structure Subordinate where
  exitsDuringWait : Bool
  exitsOnStopSignal : Bool
  stdoutData : String
  stderrData : String
deriving DecidableEq, Repr

/-- How one `run_profiler` call ends: a returned stdout text, a raised
`RuntimeError` with its message, a propagating lower-level Python error, or
model fuel exhaustion. -/
inductive RunOutcome where
  | ok (stdout : String)
  | raisedRuntimeError (msg : String)
  | raisedPy (e : PyError)
  | fuelOut
deriving DecidableEq, Repr

/-- Process events performed and final disposition of one `run_profiler`
call. -/
structure RunResult where
  events : List PEvent
  outcome : RunOutcome
deriving DecidableEq, Repr

/-- Source function `run_profiler(run_length, fb_project, extra_profiler_args)`: spawn the
profiler, `wait` for `run_length + PROFILER_OUTPUT_WAIT_TIMEOUT` (a
`TimeoutExpired` is passed over as expected behaviour); if `poll()` then
reports an exit status, raise the early-termination `RuntimeError` carrying
the buffered output; otherwise `communicate` the stop token with the
output-wait timeout: on exit within the timeout return the decoded stdout,
and on `TimeoutExpired` call `end_process` and afterwards raise the
failed-to-terminate `RuntimeError` — any exception escaping `end_process`
propagates instead. -/
def run_profiler (run_length : Int) (sub : Subordinate) (clock : ℕ → ℚ)
    (poll : ℕ → Option Int) (fuel : ℕ) : RunResult :=
  if sub.exitsDuringWait then
    ⟨[], .raisedRuntimeError ("Profiler process terminated early.\n stdout: "
        ++ sub.stdoutData ++ "\n stderr: " ++ sub.stderrData)⟩
  else if sub.exitsOnStopSignal then
    ⟨[], .ok sub.stdoutData⟩
  else
    let ep := end_process clock poll fuel
    match ep.result with
    | .raised e => ⟨ep.events, .raisedPy e⟩
    | .returned =>
      ⟨ep.events, .raisedRuntimeError ("Profiler process failed to terminate.\n stdout: "
          ++ sub.stdoutData ++ "\n stderr: " ++ sub.stderrData)⟩
    | .fuelOut => ⟨ep.events, .fuelOut⟩

/-- The ignored `run_length` mirrors the real argument list; the model's
subordinate behaviour already encodes what happens inside the waits. -/
theorem run_profiler_run_length_irrelevant (r1 r2 : Int) (sub : Subordinate)
    (clock : ℕ → ℚ) (poll : ℕ → Option Int) (fuel : ℕ) :
    run_profiler r1 sub clock poll fuel = run_profiler r2 sub clock poll fuel := rfl

/-- C3: whenever the subordinate has already exited when the bounded wait
ends, `run_profiler` raises the early-termination `RuntimeError`, whose
message contains both the captured stdout and the captured stderr, and does
not return success. -/
theorem C3_early_exit_raises (run_length : Int) (sub : Subordinate)
    (clock : ℕ → ℚ) (poll : ℕ → Option Int) (fuel : ℕ)
    (h : sub.exitsDuringWait = true) :
    ∃ msg : String,
      (run_profiler run_length sub clock poll fuel).outcome
          = .raisedRuntimeError msg ∧
      (∃ pre post : List Char, msg.data = pre ++ sub.stdoutData.data ++ post) ∧
      (∃ pre post : List Char, msg.data = pre ++ sub.stderrData.data ++ post) ∧
      ∀ s, (run_profiler run_length sub clock poll fuel).outcome ≠ .ok s := by
  have hout : (run_profiler run_length sub clock poll fuel).outcome
      = .raisedRuntimeError ("Profiler process terminated early.\n stdout: "
          ++ sub.stdoutData ++ "\n stderr: " ++ sub.stderrData) := by
    simp [run_profiler, h]
  refine ⟨_, hout, ⟨"Profiler process terminated early.\n stdout: ".data,
      ("\n stderr: " ++ sub.stderrData).data, ?_⟩,
    ⟨("Profiler process terminated early.\n stdout: " ++ sub.stdoutData
        ++ "\n stderr: ").data, [], ?_⟩, ?_⟩
  · simp [String.data_append]
  · simp [String.data_append]
  · intro s
    rw [hout]
    simp

/-- Witness for C3 at a concrete early-exiting subordinate with output
`OUT`/`ERR`. -/
theorem C3_early_exit_raises_witness :
    ∃ msg : String,
      (run_profiler 0 ⟨true, false, "OUT", "ERR"⟩ (fun _ => 0) (fun _ => none) 1).outcome
          = .raisedRuntimeError msg ∧
      (∃ pre post : List Char,
        msg.data = pre ++ (String.data "OUT") ++ post) ∧
      (∃ pre post : List Char,
        msg.data = pre ++ (String.data "ERR") ++ post) ∧
      ∀ s, (run_profiler 0 ⟨true, false, "OUT", "ERR"⟩ (fun _ => 0) (fun _ => none) 1).outcome
          ≠ .ok s :=
  C3_early_exit_raises 0 ⟨true, false, "OUT", "ERR"⟩ (fun _ => 0) (fun _ => none) 1 rfl

/-- C2 fails on the code: for a subordinate that survives the bounded wait
but does not exit after the stop token (and here stays alive throughout,
`poll` always reporting no exit), `run_profiler` reaches the
`TimeoutExpired` handler and calls `end_process` — which raises `TypeError`
right after the termination request. The `TypeError` propagates out of
`run_profiler`: the forced kill is never issued, no poll ever confirms the
process dead, and the intended failed-to-terminate `RuntimeError` is never
raised. -/
theorem C2_unresponsive_violation :
    run_profiler LOGFILE_PERIOD ⟨false, false, "OUT", "ERR"⟩ (fun k => (k : ℚ))
        (fun _ => none) 100
      = ⟨[.terminate], .raisedPy .typeError⟩ := rfl

/-! ## Control loop model -/

/-- The command-line configuration consumed by `main`'s loop body. -/
structure Config where
  fb_project : String
  output_folder : String
  output_format_raw : Bool
deriving DecidableEq, Repr

/-- The output file extension selected from the raw-output flag. -/
def output_file_extension (output_format_raw : Bool) : String :=
  if output_format_raw then "json" else "txt"

/-- Python `os.path.join(folder, name)` for the relative filenames this program
builds. -/
def pathJoin (folder name : String) : String :=
  if folder = "" then name
  else if folder.endsWith "/" then folder ++ name
  else folder ++ "/" ++ name

/-- One log line emitted by the loop body: the window-start info line, an
error line from the `except` handler, or the wrote-file info line. -/
inductive LogEntry where
  | startWindow (start : DateTime) (run_length : Int)
  | errorLine (msg : String)
  | wroteFile (path : String)
deriving DecidableEq, Repr

/-- Rendering `str(e)` for the Python exceptions the loop's handler can catch here. -/
def pyErrorMessage : PyError → String
  | .typeError => "unsupported operand type(s) for +: 'float' and 'datetime.timedelta'"
  | .assertionError => ""
  | .zeroDivisionError => "integer division or modulo by zero"

/-- Observable effects of one iteration of `main`'s `while True` loop. -/
structure CycleOutcome where
  logs : List LogEntry
  filesWritten : List (String × String)
deriving DecidableEq, Repr

/-- One iteration of the `while True` loop in `main`: sample `current_time`,
compute `run_length` for the 30-minute grid, remember the start time, call
`run_profiler`; on success write the returned text verbatim to
`{fb_project}-{formatted start time}.{ext}` under the output folder and log
the write; on any exception caught by `except Exception` log `str(e)` and
continue with no file written. `.error ()` marks what the loop does not
survive or the model cannot finish: a scheduler assertion failure (raised
outside the `try` block) or fuel exhaustion. -/
def mainCycle (cfg : Config) (now : DateTime) (sub : Subordinate)
    (clock : ℕ → ℚ) (poll : ℕ → Option Int) (fuel : ℕ) :
    Except Unit CycleOutcome :=
  match get_time_until_next_interval_start now LOGFILE_PERIOD with
  | .error _ => .error ()
  | .ok run_length =>
    let run_start_time := now
    let rr := run_profiler run_length sub clock poll fuel
    match rr.outcome with
    | .ok data =>
      let output_filename := cfg.fb_project ++ "-"
          ++ format_datetime_for_filename run_start_time ++ "."
          ++ output_file_extension cfg.output_format_raw
      let output_filepath := pathJoin cfg.output_folder output_filename
      .ok ⟨[.startWindow run_start_time run_length, .wroteFile output_filepath],
           [(output_filepath, data)]⟩
    | .raisedRuntimeError msg =>
      .ok ⟨[.startWindow run_start_time run_length, .errorLine msg], []⟩
    | .raisedPy e =>
      .ok ⟨[.startWindow run_start_time run_length, .errorLine (pyErrorMessage e)], []⟩
    | .fuelOut => .error ()

/-- The infinite `while True` loop observed for its first `n` iterations:
iteration `k` samples the wall clock (`times k`) afresh and drives that
cycle's subordinate (`subs k`) with that cycle's oracles. -/
def mainLoop (cfg : Config) (times : ℕ → DateTime) (subs : ℕ → Subordinate)
    (clocks : ℕ → ℕ → ℚ) (polls : ℕ → ℕ → Option Int) (fuels : ℕ → ℕ) :
    ℕ → List (Except Unit CycleOutcome)
  | 0 => []
  | n + 1 => mainLoop cfg times subs clocks polls fuels n
      ++ [mainCycle cfg (times n) (subs n) (clocks n) (polls n) (fuels n)]

/-- The production grid period is valid, so the scheduler never raises in
`main`. -/
theorem schedule_ok (dt : DateTime) :
    get_time_until_next_interval_start dt LOGFILE_PERIOD
      = .ok (LOGFILE_PERIOD - timeOfDayMicros dt % LOGFILE_PERIOD) :=
  get_time_until_eq dt LOGFILE_PERIOD (by norm_num [LOGFILE_PERIOD])
    (by norm_num [LOGFILE_PERIOD, microsPerDay])
    ⟨48, by norm_num [LOGFILE_PERIOD, microsPerDay]⟩

/-- Every observed prefix of the loop has exactly one entry per iteration:
the loop neither stops nor repeats an iteration. -/
theorem mainLoop_length (cfg : Config) (times : ℕ → DateTime)
    (subs : ℕ → Subordinate) (clocks : ℕ → ℕ → ℚ) (polls : ℕ → ℕ → Option Int)
    (fuels : ℕ → ℕ) (n : ℕ) :
    (mainLoop cfg times subs clocks polls fuels n).length = n := by
  induction n with
  | zero => rfl
  | succ n ih => simp [mainLoop, ih]

/-- C6: on a successful capture cycle the loop body writes exactly one
file, under the output folder, named from the project and the run's start
time (the datetime sampled before the run), containing verbatim the text
the runner returned. -/
theorem C6_success_one_file (cfg : Config) (now : DateTime) (sub : Subordinate)
    (clock : ℕ → ℚ) (poll : ℕ → Option Int) (fuel : ℕ)
    (hwait : sub.exitsDuringWait = false) (hstop : sub.exitsOnStopSignal = true) :
    (run_profiler (LOGFILE_PERIOD - timeOfDayMicros now % LOGFILE_PERIOD)
        sub clock poll fuel).outcome = .ok sub.stdoutData ∧
    ∃ out : CycleOutcome,
      mainCycle cfg now sub clock poll fuel = .ok out ∧
      out.filesWritten
        = [(pathJoin cfg.output_folder
            (cfg.fb_project ++ "-" ++ format_datetime_for_filename now ++ "."
              ++ output_file_extension cfg.output_format_raw), sub.stdoutData)] := by
  constructor
  · simp [run_profiler, hwait, hstop]
  · simp only [mainCycle, schedule_ok, run_profiler, hwait, hstop,
      Bool.false_eq_true, if_false, if_true]
    exact ⟨_, rfl, rfl⟩

/-- Witness for C6 at a concrete configuration, start time and well-behaved
subordinate. -/
theorem C6_success_one_file_witness :
    (run_profiler (LOGFILE_PERIOD
          - timeOfDayMicros ⟨2023, 5, 1, 0, 15, 30, 123456, true⟩ % LOGFILE_PERIOD)
        ⟨false, true, "DATA", ""⟩ (fun _ => 0) (fun _ => none) 1).outcome
      = .ok (Subordinate.stdoutData ⟨false, true, "DATA", ""⟩) ∧
    ∃ out : CycleOutcome,
      mainCycle ⟨"proj", "/logs", false⟩ ⟨2023, 5, 1, 0, 15, 30, 123456, true⟩
          ⟨false, true, "DATA", ""⟩ (fun _ => 0) (fun _ => none) 1 = .ok out ∧
      out.filesWritten
        = [(pathJoin "/logs"
            ("proj" ++ "-"
              ++ format_datetime_for_filename ⟨2023, 5, 1, 0, 15, 30, 123456, true⟩
              ++ "." ++ output_file_extension false),
           Subordinate.stdoutData ⟨false, true, "DATA", ""⟩)] :=
  C6_success_one_file ⟨"proj", "/logs", false⟩ ⟨2023, 5, 1, 0, 15, 30, 123456, true⟩
    ⟨false, true, "DATA", ""⟩ (fun _ => 0) (fun _ => none) 1 rfl rfl

/-- C7: a cycle whose runner fails (early exit, or no exit after the stop
token) writes no file and logs an error line, and the loop goes on: the
next observed iteration exists, is computed from the next clock sample, and
every observed prefix has exactly one entry per iteration — the loop
neither terminates nor re-runs a failed window. -/
theorem C7_failure_skips_and_continues (cfg : Config) (now : DateTime)
    (sub : Subordinate) (clock : ℕ → ℚ) (poll : ℕ → Option Int) (fuel : ℕ)
    (times : ℕ → DateTime) (subs : ℕ → Subordinate) (clocks : ℕ → ℕ → ℚ)
    (polls : ℕ → ℕ → Option Int) (fuels : ℕ → ℕ) (n : ℕ)
    (hfail : sub.exitsDuringWait = true ∨ sub.exitsOnStopSignal = false)
    (hfuel : 0 < fuel) :
    (∃ out : CycleOutcome,
      mainCycle cfg now sub clock poll fuel = .ok out ∧
      out.filesWritten = [] ∧
      ∃ msg, LogEntry.errorLine msg ∈ out.logs) ∧
    mainLoop cfg times subs clocks polls fuels (n + 1)
      = mainLoop cfg times subs clocks polls fuels n
        ++ [mainCycle cfg (times n) (subs n) (clocks n) (polls n) (fuels n)] ∧
    (mainLoop cfg times subs clocks polls fuels n).length = n := by
  refine ⟨?_, rfl, mainLoop_length cfg times subs clocks polls fuels n⟩
  by_cases hw : sub.exitsDuringWait = true
  · simp only [mainCycle, schedule_ok, run_profiler, hw, if_true]
    exact ⟨_, rfl, rfl, "Profiler process terminated early.\n stdout: "
      ++ sub.stdoutData ++ "\n stderr: " ++ sub.stderrData, by simp⟩
  · have hw' : sub.exitsDuringWait = false := by
      revert hw
      cases sub.exitsDuringWait <;> simp
    have hs : sub.exitsOnStopSignal = false := by
      rcases hfail with h | h
      · exact absurd h hw
      · exact h
    obtain ⟨f, rfl⟩ : ∃ f, fuel = f + 1 := ⟨fuel - 1, by omega⟩
    have hep := end_process_eq clock poll f
    simp only [mainCycle, schedule_ok, run_profiler, hw', hs,
      Bool.false_eq_true, if_false, hep]
    exact ⟨_, rfl, rfl, pyErrorMessage .typeError, by simp⟩

/-- Witness for C7 at a concrete failing subordinate, with two observed
iterations of the loop. -/
theorem C7_failure_skips_and_continues_witness :
    (∃ out : CycleOutcome,
      mainCycle ⟨"proj", "/logs", false⟩ ⟨2023, 5, 1, 6, 0, 0, 0, true⟩
          ⟨true, false, "OUT", "ERR"⟩ (fun _ => 0) (fun _ => none) 1 = .ok out ∧
      out.filesWritten = [] ∧
      ∃ msg, LogEntry.errorLine msg ∈ out.logs) ∧
    mainLoop ⟨"proj", "/logs", false⟩ (fun _ => ⟨2023, 5, 1, 6, 0, 0, 0, true⟩)
        (fun _ => ⟨true, false, "OUT", "ERR"⟩) (fun _ _ => 0) (fun _ _ => none)
        (fun _ => 1) (2 + 1)
      = mainLoop ⟨"proj", "/logs", false⟩ (fun _ => ⟨2023, 5, 1, 6, 0, 0, 0, true⟩)
          (fun _ => ⟨true, false, "OUT", "ERR"⟩) (fun _ _ => 0) (fun _ _ => none)
          (fun _ => 1) 2
        ++ [mainCycle ⟨"proj", "/logs", false⟩ ⟨2023, 5, 1, 6, 0, 0, 0, true⟩
            ⟨true, false, "OUT", "ERR"⟩ (fun _ => 0) (fun _ => none) 1] ∧
    (mainLoop ⟨"proj", "/logs", false⟩ (fun _ => ⟨2023, 5, 1, 6, 0, 0, 0, true⟩)
        (fun _ => ⟨true, false, "OUT", "ERR"⟩) (fun _ _ => 0) (fun _ _ => none)
        (fun _ => 1) 2).length = 2 :=
  C7_failure_skips_and_continues ⟨"proj", "/logs", false⟩
    ⟨2023, 5, 1, 6, 0, 0, 0, true⟩ ⟨true, false, "OUT", "ERR"⟩ (fun _ => 0)
    (fun _ => none) 1 (fun _ => ⟨2023, 5, 1, 6, 0, 0, 0, true⟩)
    (fun _ => ⟨true, false, "OUT", "ERR"⟩) (fun _ _ => 0) (fun _ _ => none)
    (fun _ => 1) 2 (Or.inl rfl) (by decide)
